import Mathlib

/-!
Verification of the session & credential lifecycle manager of the
cat-prod-action-groups repository: a shallow embedding in Lean 4 of the
DynamoDB session record, the OTP-validation handler
(cat-prod-lambda-validar-otp.py), the token-lifecycle functions
(validate_token / refresh_token_for_document / update_token_in_dynamodb,
character-identical in cat-prod-lambda-listar-predios.py and
cat-prod-lambda-buscar-predios.py), the property-selection set
(actualizar_chips_seleccionados_dynamodb in
cat-prod-lambda-buscar-predios.py), the exponential-backoff helper
(calculate_backoff, duplicated across the lambdas), and the
certificate-count truncation in cat-prod-lambda-generar-certificados.py.

Conventions of the embedding:
* A DynamoDB item is a `SessionItem` whose attributes are `Option`-valued
  (a missing attribute is `none`); Python `dict.get(k, d)` becomes
  `Option.getD`.  All reads and writes of one handler invocation use the
  single key `documento`, so the visible store state is
  `Option SessionItem` (the item under that key, or `none`).
  DynamoDB `update_item` creates the item when absent, so a write on
  `none` starts from a default item carrying only the key.
* Outbound HTTP attempts are oracles: an inductive outcome per attempt
  (parsed body, empty body, unparseable body, timeout, connection error,
  other request error, unexpected exception), consumed positionally by
  the retry loop.  A list of length MAX_RETRIES supplies one outcome per
  iteration of `for attempt in range(MAX_RETRIES)`; `rest = []` encodes
  the source's `attempt == MAX_RETRIES - 1` check.
* Functions additionally return natural-number counters for the network
  calls made and store writes performed, so that "zero upstream calls"
  style properties are statable.
-/

namespace CatProd

/-- The denormalized user snapshot stored inside the session item
(`usuario` map written by save_token_to_dynamodb). -/
structure Usuario where
  nombre : String := ""
  apellido : String := ""
  email : String := ""
  numeroDocumento : String := ""
deriving Repr, DecidableEq

/-- One item of the cat-test-certification-session-tokens DynamoDB table,
keyed by `documento`.  Every non-key attribute is optional: handlers read
them with `.get(attr, default)` and create them on first write. -/
structure SessionItem where
  documento : Option String := none
  sessionId : Option String := none
  token : Option String := none
  refreshToken : Option String := none
  tipoDocumento : Option String := none
  tokenType : Option String := none
  createdAt : Option Int := none
  updatedAt : Option Int := none
  ttl : Option Int := none
  intentosRestantes : Option Int := none
  last_otp_attempt : Option Int := none
  usuario : Option Usuario := none
  chipsSeleccionados : Option (List String) := none
deriving Repr, DecidableEq

/-- The `intentosRestantes` attribute of the stored item, when both the
item and the attribute exist. -/
def storedIntentos (st : Option SessionItem) : Option Int :=
  st.bind fun item => item.intentosRestantes

/-- The `chipsSeleccionados` attribute of the stored item, defaulted to
the empty list as the handlers read it. -/
def storedChips (st : Option SessionItem) : List String :=
  (st.bind fun item => item.chipsSeleccionados).getD []

end CatProd

namespace ValidarOtp

open CatProd

/-- MAX_RETRIES of cat-prod-lambda-validar-otp.py (line 23). -/
def MAX_RETRIES : Nat := 10

/-- INITIAL_BACKOFF of cat-prod-lambda-validar-otp.py (line 24), seconds. -/
def INITIAL_BACKOFF : Nat := 1

/-- MAX_BACKOFF of cat-prod-lambda-validar-otp.py (line 25), seconds. -/
def MAX_BACKOFF : Nat := 60

/-- calculate_backoff of cat-prod-lambda-validar-otp.py (lines 175-188):
`min(INITIAL_BACKOFF * (2 ** attempt), MAX_BACKOFF)`. -/
def calculate_backoff (attempt : Nat) : Nat :=
  min (INITIAL_BACKOFF * 2 ^ attempt) MAX_BACKOFF

/-- The dict returned by call_validar_otp / get_mock_otp_response and
consumed by the handler.  Keys other than `success` may be absent. -/
structure OtpApiResponse where
  success : Bool := false
  intentosRestantes : Option Int := none
  message : Option String := none
  token : Option String := none
  refreshToken : Option String := none
  tokenType : Option String := none
  expiresIn : Option Int := none
  usuario : Option Usuario := none
deriving Repr, DecidableEq

/-- The body dict the handler returns to the Bedrock agent (before
build_response wraps it in the envelope). -/
structure HandlerResponse where
  success : Bool
  intentosRestantes : Int
  message : String
deriving Repr, DecidableEq

/-- get_current_otp_attempts (lines 598-628): reads
`Item.get('intentosRestantes', 3)`, returning 3 when the item is absent. -/
def get_current_otp_attempts (st : Option SessionItem) : Int :=
  match st with
  | some item => item.intentosRestantes.getD 3
  | none => 3

/-- update_otp_attempts (lines 631-661): `update_item` setting
`intentosRestantes` and `last_otp_attempt`, creating the item when
absent. -/
def update_otp_attempts (documento : String) (intentos_restantes : Int)
    (now : Int) (st : Option SessionItem) : Option SessionItem :=
  some { st.getD { documento := some documento } with
    intentosRestantes := some intentos_restantes,
    last_otp_attempt := some now }

/-- save_token_to_dynamodb (lines 664-750): validates session_id and
token, then one `update_item` setting sessionId, token, refreshToken,
tipoDocumento, tokenType, createdAt and ttl (= now + 600) together.
Returns whether the write happened, with the new store state. -/
def save_token_to_dynamodb (session_id token refresh_token documento tipo_documento : String)
    (usuario : Usuario) (now : Int) (st : Option SessionItem) :
    Bool × Option SessionItem :=
  if session_id = "" ∨ token = "" then
    (false, st)
  else
    (true, some { st.getD { documento := some documento } with
      sessionId := some session_id,
      token := some token,
      refreshToken := some refresh_token,
      tipoDocumento := some tipo_documento,
      tokenType := some "Bearer",
      createdAt := some now,
      ttl := some (now + 600),
      usuario := some usuario })

/-- The handler of cat-prod-lambda-validar-otp.py (lines 191-345), after
the Bedrock-envelope extraction, in real-API mode (ENABLE_MOCK false).
`api_response` is the outcome of the single upstream call made through
call_validar_otp; the last component counts upstream calls.  The handler
makes that call unconditionally once the inputs are non-empty: there is
no check of the stored attempt counter before it.  On success it persists
the token and resets the counter to 3; on failure it decrements the
stored counter with `max(0, n - 1)`. -/
def handler (documento codigo tipo_documento session_id : String)
    (api_response : OtpApiResponse) (now : Int) (st : Option SessionItem) :
    HandlerResponse × Option SessionItem × Nat :=
  if documento = "" ∨ codigo = "" then
    ({ success := false, intentosRestantes := 0,
       message := "Documento y código son requeridos" }, st, 0)
  else
    let tipo := if tipo_documento = "" then "CC" else tipo_documento
    if api_response.success then
      let saved := save_token_to_dynamodb session_id (api_response.token.getD "")
        (api_response.refreshToken.getD "") documento tipo
        (api_response.usuario.getD {}) now st
      let st2 := update_otp_attempts documento 3 now saved.2
      ({ success := true, intentosRestantes := 3,
         message := " Código OTP válido" }, st2, 1)
    else
      let intentos_actuales := get_current_otp_attempts st
      let intentos_restantes := max 0 (intentos_actuales - 1)
      let st1 := update_otp_attempts documento intentos_restantes now st
      ({ success := false, intentosRestantes := intentos_restantes,
         message := api_response.message.getD "Código incorrecto" }, st1, 1)

/-- The `usuario` object inside the login API's parsed JSON body. -/
structure LoginUsuario where
  nombre : Option String := none
  apellido : Option String := none
  email : Option String := none
  numeroDocumento : Option String := none
deriving Repr, DecidableEq

/-- The `data` object inside the login API's parsed JSON body. -/
structure LoginData where
  usuario : Option LoginUsuario := none
  token : Option String := none
  refreshToken : Option String := none
  tokenType : Option String := none
  expiresIn : Option Int := none
deriving Repr, DecidableEq

/-- The parsed JSON body of one POST /auth/login response. -/
structure LoginBody where
  success : Bool := false
  message : Option String := none
  data : Option LoginData := none
deriving Repr, DecidableEq

/-- Outcome of one HTTP attempt inside call_validar_otp.  The transient
outcomes carry `str(e)` where the source keeps a last_exception. -/
inductive OtpAttempt where
  | parsed (status : Int) (body : LoginBody)
  | emptyBody
  | badJson
  | timeout (e : String)
  | connError (e : String)
  | reqError (e : String)
  | unexpected (e : String)
deriving Repr, DecidableEq

/-- The outcomes call_validar_otp retries on: empty body, unparseable
body, timeout, connection error, other requests exception. -/
def OtpAttempt.isTransient : OtpAttempt → Bool
  | .emptyBody | .badJson | .timeout _ | .connError _ | .reqError _ => true
  | .parsed _ _ | .unexpected _ => false

/-- Python `'expirado' in s`, via splitOn. -/
def containsSubstring (s pat : String) : Bool :=
  (s.splitOn pat).length ≠ 1

/-- The response call_validar_otp builds from a parsed JSON body
(cases 1-5 of the source, lines 462-527).  The source's case 3
(`elif resp.status_code == 200`) is unreachable because case 2
(`elif resp.status_code in [200, 200]`) already captured status 200, so
the chain goes straight from the status-200 cases to the expiry check. -/
def otpParsedResponse (documento : String) (status : Int) (body : LoginBody) :
    OtpApiResponse :=
  if status = 200 ∧ body.success then
    let data := body.data.getD {}
    let usuario := data.usuario.getD {}
    { success := true, intentosRestantes := some 3,
      message := some "Código OTP válido",
      token := some (data.token.getD ""),
      refreshToken := some (data.refreshToken.getD ""),
      tokenType := some (data.tokenType.getD "Bearer"),
      expiresIn := some (data.expiresIn.getD 86400),
      usuario := some {
        nombre := usuario.nombre.getD "",
        apellido := usuario.apellido.getD "",
        email := usuario.email.getD "",
        numeroDocumento := usuario.numeroDocumento.getD documento } }
  else if status = 200 then
    { success := false, message := some (body.message.getD "") }
  else if containsSubstring (body.message.getD "").toLower "expirado" then
    { success := false, intentosRestantes := some 0,
      message := some " El código ha expirado. Debes solicitar uno nuevo" }
  else
    { success := false, intentosRestantes := some 0,
      message := some "Error al validar el código" }

/-- The retry loop of call_validar_otp (lines 348-592), consuming one
outcome per iteration; `rest = []` encodes `attempt == MAX_RETRIES - 1`
for an outcome list of length MAX_RETRIES.  Every branch returns a dict:
all requests exceptions and the generic Exception are caught inside the
loop, so no exception escapes the wrapper. -/
def otpRetryLoop (documento : String) :
    List OtpAttempt → Option String → OtpApiResponse
  | [], lastExc =>
    { success := false, intentosRestantes := some 0,
      message := some ("Error después de " ++ toString MAX_RETRIES ++
        " intentos al validar el código OTP: " ++ lastExc.getD "None") }
  | o :: rest, lastExc =>
    match o with
    | .parsed status body => otpParsedResponse documento status body
    | .emptyBody =>
      if rest = [] then
        { success := false, intentosRestantes := some 0,
          message := some "Error: El servidor retornó una respuesta vacía después de múltiples intentos" }
      else otpRetryLoop documento rest lastExc
    | .badJson =>
      if rest = [] then
        { success := false, intentosRestantes := some 0,
          message := some "Error en la respuesta del servidor después de múltiples intentos" }
      else otpRetryLoop documento rest lastExc
    | .timeout e =>
      if rest = [] then
        { success := false, intentosRestantes := some 0,
          message := some "Tiempo de espera agotado al validar el código OTP" }
      else otpRetryLoop documento rest (some e)
    | .connError e =>
      if rest = [] then
        { success := false, intentosRestantes := some 0,
          message := some "No se pudo conectar con el servidor de validación" }
      else otpRetryLoop documento rest (some e)
    | .reqError e =>
      if rest = [] then
        { success := false, intentosRestantes := some 0,
          message := some "Error en la solicitud al validar el código OTP" }
      else otpRetryLoop documento rest (some e)
    | .unexpected _ =>
      { success := false, intentosRestantes := some 0,
        message := some "Error inesperado al validar el código OTP" }

/-- call_validar_otp over the outcome oracle, started with
last_exception = None. -/
def call_validar_otp (documento : String) (attempts : List OtpAttempt) :
    OtpApiResponse :=
  otpRetryLoop documento attempts none

/-- The structured failure call_validar_otp hands back when all retries
were exhausted and the LAST attempt failed with the given transient
outcome (the message describes that last error). -/
def otpTransientExhaust : OtpAttempt → OtpApiResponse
  | .emptyBody =>
    { success := false, intentosRestantes := some 0,
      message := some "Error: El servidor retornó una respuesta vacía después de múltiples intentos" }
  | .badJson =>
    { success := false, intentosRestantes := some 0,
      message := some "Error en la respuesta del servidor después de múltiples intentos" }
  | .timeout _ =>
    { success := false, intentosRestantes := some 0,
      message := some "Tiempo de espera agotado al validar el código OTP" }
  | .connError _ =>
    { success := false, intentosRestantes := some 0,
      message := some "No se pudo conectar con el servidor de validación" }
  | .reqError _ =>
    { success := false, intentosRestantes := some 0,
      message := some "Error en la solicitud al validar el código OTP" }
  | .parsed _ _ | .unexpected _ => {}

end ValidarOtp

namespace ValidarIdentidad

/-- MAX_RETRIES of cat-prod-lambda-validar-identidad.py (line 16). -/
def MAX_RETRIES : Nat := 8

/-- INITIAL_BACKOFF of cat-prod-lambda-validar-identidad.py (line 17). -/
def INITIAL_BACKOFF : Nat := 1

/-- MAX_BACKOFF of cat-prod-lambda-validar-identidad.py (line 18). -/
def MAX_BACKOFF : Nat := 60

/-- calculate_backoff of cat-prod-lambda-validar-identidad.py
(lines 365-378): `min(INITIAL_BACKOFF * (2 ** attempt), MAX_BACKOFF)`. -/
def calculate_backoff (attempt : Nat) : Nat :=
  min (INITIAL_BACKOFF * 2 ^ attempt) MAX_BACKOFF

end ValidarIdentidad

namespace TokenLifecycle

/-!
The token-lifecycle functions validate_token, refresh_token_for_document,
call_refresh_token_api, update_token_in_dynamodb and
get_token_from_dynamodb are character-identical between
cat-prod-lambda-listar-predios.py (validate_token lines 737-884,
update_token_in_dynamodb lines 1210-1261) and
cat-prod-lambda-buscar-predios.py (validate_token lines 1010-1157,
update_token_in_dynamodb lines 1483-1534), with the same constants
MAX_RETRIES = 10, INITIAL_BACKOFF = 1, MAX_BACKOFF = 60.  This namespace
embeds that single shared implementation once.
-/

open CatProd

/-- MAX_RETRIES of both predios lambdas. -/
def MAX_RETRIES : Nat := 10

/-- A Python computation that either returns a value or raises. -/
inductive PyResult (α : Type) where
  | ok (a : α)
  | exn (e : String)
deriving Repr, DecidableEq

/-- The `tokenInfo` object of a parsed GET /auth/validate-token body. -/
structure TokenInfo where
  timeToExpire : Option Int := none
deriving Repr, DecidableEq

/-- The `data` object of a parsed GET /auth/validate-token body. -/
structure ValidateData where
  valid : Option Bool := none
  tokenInfo : Option TokenInfo := none
deriving Repr, DecidableEq

/-- A parsed GET /auth/validate-token response body. -/
structure ValidateBody where
  data : Option ValidateData := none
deriving Repr, DecidableEq

/-- Outcome of one HTTP attempt of the validation loop inside
validate_token.  There is no empty-body branch in this loop; the parsed
outcome carries the body only, because validate_token never inspects the
status code of a parseable response. -/
inductive ValidateAttempt where
  | parsed (body : ValidateBody)
  | badJson
  | timeout (e : String)
  | connError (e : String)
  | reqError (e : String)
  | unexpected (e : String)
deriving Repr, DecidableEq

/-- The dict validate_token returns. -/
structure ValidateResult where
  status_code : Int
  success : Bool
  message : String
deriving Repr, DecidableEq

/-- The `data` object of a parsed POST /auth/refresh response body. -/
structure RefreshData where
  token : Option String := none
  refreshToken : Option String := none
  tokenType : Option String := none
  expiresIn : Option Int := none
deriving Repr, DecidableEq

/-- A parsed POST /auth/refresh response body. -/
structure RefreshBody where
  success : Bool := false
  message : Option String := none
  data : Option RefreshData := none
deriving Repr, DecidableEq

/-- Outcome of one HTTP attempt of call_refresh_token_api.  badJson
carries the Content-Type header the source interpolates into its error
string; the exception outcomes carry `str(e)`. -/
inductive RefreshAttempt where
  | parsed (status : Int) (body : RefreshBody)
  | emptyBody
  | badJson (contentType : String)
  | timeout (e : String)
  | connError (e : String)
  | reqError (e : String)
  | unexpected (e : String)
deriving Repr, DecidableEq

/-- The irregularly-shaped dict call_refresh_token_api returns: depending
on the branch it holds a `data` payload, top-level `success`/`message`
keys, and/or an `error` key.  Absent keys are `none`. -/
structure RefreshApiResponse where
  status_code : Int := 200
  data : Option RefreshBody := none
  success : Option Bool := none
  message : Option String := none
  error : Option String := none
deriving Repr, DecidableEq

/-- The retry loop of call_refresh_token_api (buscar lines 1297-1480 and
the identical copy in listar), consuming one outcome per iteration;
`rest = []` encodes `attempt == MAX_RETRIES - 1` for an outcome list of
length MAX_RETRIES.  The second component counts HTTP POSTs made. -/
def refreshRetryLoop :
    List RefreshAttempt → Option String → RefreshApiResponse × Nat
  | [], lastExc =>
    ({ status_code := 500,
       error := some ("Error después de " ++ toString MAX_RETRIES ++
         " intentos: " ++ lastExc.getD "None") }, 0)
  | o :: rest, lastExc =>
    match o with
    | .parsed status body => ({ status_code := status, data := some body }, 1)
    | .emptyBody =>
      if rest = [] then
        ({ status_code := 500,
           error := some "El API retornó una respuesta vacía después de múltiples intentos" }, 1)
      else
        let r := refreshRetryLoop rest lastExc
        (r.1, r.2 + 1)
    | .badJson contentType =>
      if rest = [] then
        ({ status_code := 500,
           error := some ("Respuesta del API no es un JSON válido. Content-Type: " ++ contentType) }, 1)
      else
        let r := refreshRetryLoop rest lastExc
        (r.1, r.2 + 1)
    | .timeout e =>
      if rest = [] then
        let body : RefreshBody :=
          { success := false,
            message := some "Tiempo de espera agotado al conectar con el API" }
        ({ status_code := 200, data := some body,
           error := some ("No se pudo conectar con el API después de múltiples intentos debido a timeout: " ++ e) }, 1)
      else
        let r := refreshRetryLoop rest (some e)
        (r.1, r.2 + 1)
    | .connError e =>
      if rest = [] then
        ({ status_code := 200, success := some false,
           message := some "No se pudo conectar con el API" }, 1)
      else
        let r := refreshRetryLoop rest (some e)
        (r.1, r.2 + 1)
    | .reqError e =>
      if rest = [] then
        ({ status_code := 200, success := some false,
           message := some "Error en la solicitud HTTP al conectar con el API" }, 1)
      else
        let r := refreshRetryLoop rest (some e)
        (r.1, r.2 + 1)
    | .unexpected _ =>
      ({ status_code := 200, success := some false,
         message := some "Error inesperado al conectar con el API" }, 1)

/-- call_refresh_token_api over the outcome oracle, started with
last_exception = None. -/
def call_refresh_token_api (attempts : List RefreshAttempt) :
    RefreshApiResponse × Nat :=
  refreshRetryLoop attempts none

/-- The structured failure call_refresh_token_api hands back when all
retries were exhausted and the LAST attempt failed with the given
transient outcome. -/
def refreshTransientExhaust : RefreshAttempt → RefreshApiResponse
  | .emptyBody =>
    { status_code := 500,
      error := some "El API retornó una respuesta vacía después de múltiples intentos" }
  | .badJson contentType =>
    { status_code := 500,
      error := some ("Respuesta del API no es un JSON válido. Content-Type: " ++ contentType) }
  | .timeout e =>
    let body : RefreshBody :=
      { success := false,
        message := some "Tiempo de espera agotado al conectar con el API" }
    { status_code := 200, data := some body,
      error := some ("No se pudo conectar con el API después de múltiples intentos debido a timeout: " ++ e) }
  | .connError _ =>
    { status_code := 200, success := some false,
      message := some "No se pudo conectar con el API" }
  | .reqError _ =>
    { status_code := 200, success := some false,
      message := some "Error en la solicitud HTTP al conectar con el API" }
  | .parsed _ _ | .unexpected _ => {}

/-- The outcomes call_refresh_token_api retries on. -/
def RefreshAttempt.isTransient : RefreshAttempt → Bool
  | .emptyBody | .badJson _ | .timeout _ | .connError _ | .reqError _ => true
  | .parsed _ _ | .unexpected _ => false

/-- update_token_in_dynamodb (buscar lines 1483-1534, identical in
listar lines 1210-1261): after validating its inputs, ONE `update_item`
sets `token`, `refreshToken`, `tokenType`, `updatedAt` and
`ttl = now + expires_in` together and touches nothing else.  Note the
written timestamp attribute is `updatedAt`; `createdAt` (written by the
OTP lambda at login) is not part of this update. -/
def update_token_in_dynamodb (documento token refresh_token token_type : String)
    (expires_in now : Int) (st : Option SessionItem) :
    Bool × Option SessionItem :=
  if documento = "" ∨ token = "" then
    (false, st)
  else
    (true, some { st.getD { documento := some documento } with
      token := some token,
      refreshToken := some refresh_token,
      tokenType := some token_type,
      updatedAt := some now,
      ttl := some (now + expires_in) })

/-- The dict refresh_token_for_document returns on its normal paths. -/
structure RefreshResult where
  success : Bool
  message : String
deriving Repr, DecidableEq

/-- refresh_token_for_document (buscar lines 1163-1253, identical in
listar): reads `documento` and `refreshToken` from the already-fetched
item; fails fast (zero network calls) when there is no refresh token;
otherwise calls call_refresh_token_api and persists the result via
update_token_in_dynamodb.  `api_response['data']` is a bare indexing, so
when the wrapper's exhaustion result has no `data` key this raises a
KeyError, modelled as `PyResult.exn`.  Third component counts refresh
HTTP calls. -/
def refresh_token_for_document (token_dict : Option SessionItem)
    (attempts : List RefreshAttempt) (now : Int) (st : Option SessionItem) :
    PyResult RefreshResult × Option SessionItem × Nat :=
  let refresh_token := (token_dict.bind fun d => d.refreshToken).getD ""
  if refresh_token = "" then
    let r : RefreshResult :=
      { success := false,
        message := "No se encontró refresh token. Por favor, inicia sesión nuevamente." }
    (.ok r, st, 0)
  else
    let documento := (token_dict.bind fun d => d.documento).getD ""
    let call := call_refresh_token_api attempts
    match call.1.data with
    | none => (.exn "KeyError: data", st, call.2)
    | some response_data =>
      if ¬ response_data.success then
        (.ok { success := false,
               message := response_data.message.getD "Error al refrescar el token" }, st, call.2)
      else
        let data := response_data.data.getD {}
        let new_token := data.token.getD ""
        if new_token = "" then
          (.ok { success := false, message := "No se pudo obtener un nuevo token" }, st, call.2)
        else
          let upd := update_token_in_dynamodb documento new_token
            (data.refreshToken.getD "") (data.tokenType.getD "Bearer")
            (data.expiresIn.getD 86400) now st
          if ¬ upd.1 then
            (.ok { success := false,
                   message := "Token refrescado exitosamente (advertencia: no se actualizó en DynamoDB)" }, upd.2, call.2)
          else
            (.ok { success := true, message := "Token refrescado exitosamente" }, upd.2, call.2)

/-- The bearer token validate_token puts in its Authorization header:
`token_dict.get('token', '') if token_dict else ''` — the empty string
when the session record is absent. -/
def validate_request_token (st : Option SessionItem) : String :=
  (st.bind fun d => d.token).getD ""

/-- The retry loop of validate_token (buscar lines 1010-1157, identical
in listar lines 737-884), consuming one outcome per validation GET;
`rest = []` encodes `attempt == MAX_RETRIES - 1`.  Returns the result
(`none` models Python falling off the loop and returning None, dead for a
non-empty oracle), the store state, the number of validation GETs made
and the number of refresh POSTs made.  A KeyError raised inside
refresh_token_for_document is caught by this loop's generic
`except Exception` branch. -/
def validateLoop (refreshAttempts : List RefreshAttempt) (now : Int)
    (st : Option SessionItem) :
    List ValidateAttempt → Option ValidateResult × Option SessionItem × Nat × Nat
  | [] => (none, st, 0, 0)
  | o :: rest =>
    match o with
    | .parsed body =>
      let data := body.data.getD {}
      let is_valid := data.valid.getD false
      let time_to_expire := (data.tokenInfo.getD {}).timeToExpire.getD 0
      if is_valid = true ∧ 2000 < time_to_expire then
        (some { status_code := 200, success := true, message := "Token es válido" }, st, 1, 0)
      else
        match refresh_token_for_document st refreshAttempts now st with
        | (.ok r, st2, n) =>
          if r.success then
            let res : ValidateResult :=
              { status_code := 200, success := true,
                message := "Token refrescado exitosamente" }
            (some res, st2, 1, n)
          else
            (some { status_code := 200, success := false, message := r.message }, st2, 1, n)
        | (.exn e, st2, n) =>
          (some { status_code := 200, success := false,
                  message := "Error inesperado al conectar con el API: " ++ e }, st2, 1, n)
    | .badJson =>
      if rest = [] then
        (some { status_code := 200, success := false,
                message := "Error al parsear JSON de la respuesta del API" }, st, 1, 0)
      else
        let r := validateLoop refreshAttempts now st rest
        (r.1, r.2.1, r.2.2.1 + 1, r.2.2.2)
    | .timeout e =>
      if rest = [] then
        (some { status_code := 200, success := false,
                message := "Tiempo de espera agotado al conectar con el API: " ++ e }, st, 1, 0)
      else
        let r := validateLoop refreshAttempts now st rest
        (r.1, r.2.1, r.2.2.1 + 1, r.2.2.2)
    | .connError _ =>
      if rest = [] then
        (some { status_code := 200, success := false,
                message := "No se pudo conectar con el API" }, st, 1, 0)
      else
        let r := validateLoop refreshAttempts now st rest
        (r.1, r.2.1, r.2.2.1 + 1, r.2.2.2)
    | .reqError _ =>
      if rest = [] then
        (some { status_code := 200, success := false,
                message := "Error en la solicitud HTTP al conectar con el API" }, st, 1, 0)
      else
        let r := validateLoop refreshAttempts now st rest
        (r.1, r.2.1, r.2.2.1 + 1, r.2.2.2)
    | .unexpected e =>
      (some { status_code := 200, success := false,
              message := "Error inesperado al conectar con el API: " ++ e }, st, 1, 0)

/-- validate_token(documento): reads the session item for the documento
(passed here already fetched, as `st`), then runs the validation loop.
Components: result, new store state, validation GETs made, refresh POSTs
made. -/
def validate_token (st : Option SessionItem) (vAttempts : List ValidateAttempt)
    (refreshAttempts : List RefreshAttempt) (now : Int) :
    Option ValidateResult × Option SessionItem × Nat × Nat :=
  validateLoop refreshAttempts now st vAttempts

end TokenLifecycle

namespace BuscarPredios

open CatProd

/-- The dict actualizar_chips_seleccionados_dynamodb returns. -/
structure ChipsResult where
  success : Bool
  message : String
  chips : List String
  total : Nat
  limiteAlcanzado : Bool
deriving Repr, DecidableEq

/-- actualizar_chips_seleccionados_dynamodb of
cat-prod-lambda-buscar-predios.py (lines 308-430): validates inputs,
reads the item, then (a) duplicate chip: success, no write; (b) already
3 or more chips: limit failure, no write; (c) otherwise appends the chip
and writes the list back.  Third component counts `update_item` writes. -/
def actualizar_chips_seleccionados_dynamodb (documento nuevo_chip : String)
    (st : Option SessionItem) : ChipsResult × Option SessionItem × Nat :=
  if documento = "" ∨ nuevo_chip = "" then
    ({ success := false, message := "Documento y CHIP son requeridos",
       chips := [], total := 0, limiteAlcanzado := false }, st, 0)
  else
    match st with
    | none =>
      ({ success := false,
         message := "Sesión no encontrada. Por favor valida tu identidad nuevamente.",
         chips := [], total := 0, limiteAlcanzado := false }, none, 0)
    | some item =>
      let chips_actuales := item.chipsSeleccionados.getD []
      if nuevo_chip ∈ chips_actuales then
        ({ success := true,
           message := "El predio ya estaba en tu selección (" ++
             toString chips_actuales.length ++ "/3)",
           chips := chips_actuales, total := chips_actuales.length,
           limiteAlcanzado := decide (3 ≤ chips_actuales.length) }, some item, 0)
      else if 3 ≤ chips_actuales.length then
        ({ success := false,
           message := "Has alcanzado el límite máximo de 3 predios.",
           chips := chips_actuales, total := chips_actuales.length,
           limiteAlcanzado := true }, some item, 0)
      else
        let chips2 := chips_actuales ++ [nuevo_chip]
        ({ success := true,
           message := "Predio agregado exitosamente. Tienes " ++
             toString chips2.length ++ " predio(s) seleccionado(s)",
           chips := chips2, total := chips2.length,
           limiteAlcanzado := decide (3 ≤ chips2.length) },
         some { item with chipsSeleccionados := some chips2 }, 1)

end BuscarPredios

namespace GenerarCertificados

/-- MAX_CERTIFICADOS of cat-prod-lambda-generar-certificados.py
(line 34). -/
def MAX_CERTIFICADOS : Nat := 3

/-- The chips-acquisition slice of the handler of
cat-prod-lambda-generar-certificados.py: flow 1 (direcciones given) uses
the converted CHIPs and fails only when none converted (lines 466-472);
flow 2 reads the stored selection and fails only when it is empty
(lines 494-505).  Returns the error message body on failure. -/
def resolve_chips (from_direcciones : Bool) (converted stored : List String) :
    Except String (List String) :=
  if from_direcciones then
    if converted.length = 0 then
      .error "No se pudieron obtener CHIPs de las direcciones"
    else
      .ok converted
  else
    if stored.length = 0 then
      .error "No has seleccionado ningún predio. Por favor busca y selecciona al menos un predio antes de generar certificados."
    else
      .ok stored

/-- The limit check that follows (lines 511-515): when more than
MAX_CERTIFICADOS CHIPs were gathered the handler does NOT reject; it
keeps only the first MAX_CERTIFICADOS (`chips = chips[:MAX_CERTIFICADOS]`)
and proceeds. -/
def chips_to_generate (from_direcciones : Bool) (converted stored : List String) :
    Except String (List String) :=
  (resolve_chips from_direcciones converted stored).map fun chips =>
    if MAX_CERTIFICADOS < chips.length then chips.take MAX_CERTIFICADOS else chips

end GenerarCertificados

/-! ## Theorems -/

/-- Claim C4: for every attempt index in `[0, maxRetries)` the backoff
delay equals `min(INITIAL_BACKOFF * 2 ^ attempt, MAX_BACKOFF)`, the
sequence is non-decreasing in the attempt index, and it never exceeds
MAX_BACKOFF — for both copies of calculate_backoff
(cat-prod-lambda-validar-otp.py with maxRetries = 10 and
cat-prod-lambda-validar-identidad.py with maxRetries = 8). -/
theorem c4_backoff_formula :
    (∀ a, a < ValidarOtp.MAX_RETRIES →
      ValidarOtp.calculate_backoff a =
        min (ValidarOtp.INITIAL_BACKOFF * 2 ^ a) ValidarOtp.MAX_BACKOFF ∧
      ValidarOtp.calculate_backoff a ≤ ValidarOtp.MAX_BACKOFF) ∧
    (∀ a b, a ≤ b → b < ValidarOtp.MAX_RETRIES →
      ValidarOtp.calculate_backoff a ≤ ValidarOtp.calculate_backoff b) ∧
    (∀ a, a < ValidarIdentidad.MAX_RETRIES →
      ValidarIdentidad.calculate_backoff a =
        min (ValidarIdentidad.INITIAL_BACKOFF * 2 ^ a) ValidarIdentidad.MAX_BACKOFF ∧
      ValidarIdentidad.calculate_backoff a ≤ ValidarIdentidad.MAX_BACKOFF) ∧
    (∀ a b, a ≤ b → b < ValidarIdentidad.MAX_RETRIES →
      ValidarIdentidad.calculate_backoff a ≤ ValidarIdentidad.calculate_backoff b) := by
  refine ⟨fun a _ => ⟨rfl, min_le_right _ _⟩, fun a b hab _ => ?_,
    fun a _ => ⟨rfl, min_le_right _ _⟩, fun a b hab _ => ?_⟩ <;>
    exact min_le_min
      (Nat.mul_le_mul_left _ (Nat.pow_le_pow_right (by decide) hab)) le_rfl

/-- Witness for C4 at attempt 3 (and monotonicity from 2 to 5). -/
theorem c4_backoff_formula_witness :
    (ValidarOtp.calculate_backoff 3 =
      min (ValidarOtp.INITIAL_BACKOFF * 2 ^ 3) ValidarOtp.MAX_BACKOFF ∧
     ValidarOtp.calculate_backoff 3 ≤ ValidarOtp.MAX_BACKOFF) ∧
    ValidarOtp.calculate_backoff 2 ≤ ValidarOtp.calculate_backoff 5 ∧
    (ValidarIdentidad.calculate_backoff 7 =
      min (ValidarIdentidad.INITIAL_BACKOFF * 2 ^ 7) ValidarIdentidad.MAX_BACKOFF ∧
     ValidarIdentidad.calculate_backoff 7 ≤ ValidarIdentidad.MAX_BACKOFF) :=
  ⟨c4_backoff_formula.1 3 (by decide),
   c4_backoff_formula.2.1 2 5 (by decide) (by decide),
   c4_backoff_formula.2.2.1 7 (by decide)⟩

/-- Claim C5: the handler of cat-prod-lambda-validar-otp.py sets the
stored attemptsRemaining to 3 on a successful OTP validation regardless
of its prior value, and on a failed OTP check with prior value n stores
exactly `max(0, n - 1)`, which is `n - 1` for `n > 0` and never
negative. -/
theorem c5_attempt_counter_transition
    (documento codigo tipo_documento session_id : String)
    (api : ValidarOtp.OtpApiResponse) (now : Int) (st : Option CatProd.SessionItem)
    (hdoc : documento ≠ "") (hcod : codigo ≠ "") :
    (api.success = true →
      CatProd.storedIntentos
        (ValidarOtp.handler documento codigo tipo_documento session_id api now st).2.1 =
        some 3) ∧
    (api.success = false →
      CatProd.storedIntentos
        (ValidarOtp.handler documento codigo tipo_documento session_id api now st).2.1 =
        some (max 0 (ValidarOtp.get_current_otp_attempts st - 1)) ∧
      0 ≤ max 0 (ValidarOtp.get_current_otp_attempts st - 1) ∧
      (0 < ValidarOtp.get_current_otp_attempts st →
        max 0 (ValidarOtp.get_current_otp_attempts st - 1) =
          ValidarOtp.get_current_otp_attempts st - 1)) := by
  constructor
  · intro hsucc
    simp [ValidarOtp.handler, ValidarOtp.update_otp_attempts,
      ValidarOtp.save_token_to_dynamodb, CatProd.storedIntentos, hdoc, hcod, hsucc]
  · intro hfail
    refine ⟨?_, le_max_left _ _, fun hpos => max_eq_right (by omega)⟩
    simp [ValidarOtp.handler, ValidarOtp.update_otp_attempts,
      CatProd.storedIntentos, hdoc, hcod, hfail]

/-- Witness for C5: a failed check at prior value 2 stores 1; a
successful check at prior value 1 stores 3. -/
theorem c5_attempt_counter_transition_witness :
    (CatProd.storedIntentos
      (ValidarOtp.handler "123456789" "0000" "CC" "s1"
        { success := false, message := some "Código incorrecto" } 1000
        (some { documento := some "123456789", intentosRestantes := some 2 })).2.1 =
      some (max 0 (ValidarOtp.get_current_otp_attempts
        (some { documento := some "123456789", intentosRestantes := some 2 }) - 1)) ∧
     0 ≤ max 0 (ValidarOtp.get_current_otp_attempts
        (some { documento := some "123456789", intentosRestantes := some 2 }) - 1) ∧
     (0 < ValidarOtp.get_current_otp_attempts
        (some { documento := some "123456789", intentosRestantes := some 2 }) →
      max 0 (ValidarOtp.get_current_otp_attempts
        (some { documento := some "123456789", intentosRestantes := some 2 }) - 1) =
        ValidarOtp.get_current_otp_attempts
          (some { documento := some "123456789", intentosRestantes := some 2 }) - 1)) ∧
    CatProd.storedIntentos
      (ValidarOtp.handler "123456789" "1234" "CC" "s1"
        { success := true, token := some "T" } 1000
        (some { documento := some "123456789", intentosRestantes := some 1 })).2.1 =
      some 3 :=
  ⟨(c5_attempt_counter_transition "123456789" "0000" "CC" "s1"
      { success := false, message := some "Código incorrecto" } 1000
      (some { documento := some "123456789", intentosRestantes := some 2 })
      (by decide) (by decide)).2 rfl,
   (c5_attempt_counter_transition "123456789" "1234" "CC" "s1"
      { success := true, token := some "T" } 1000
      (some { documento := some "123456789", intentosRestantes := some 1 })
      (by decide) (by decide)).1 rfl⟩

/-- Claim C1 counterexample: with attemptsRemaining = 0 stored for
documento "123456789", a further OTP submission is NOT rejected before
contacting the identity provider — the handler makes exactly one
upstream call (third component 1, not 0) and returns the upstream
mismatch message rather than a local terminal lockout error. -/
theorem c1_lockout_counterexample :
    (ValidarOtp.handler "123456789" "0000" "CC" "sess-1"
      { success := false, message := some "Código incorrecto" } 1000
      (some { documento := some "123456789", intentosRestantes := some 0 })).2.2 = 1 ∧
    (1 : Nat) ≠ 0 ∧
    (ValidarOtp.handler "123456789" "0000" "CC" "sess-1"
      { success := false, message := some "Código incorrecto" } 1000
      (some { documento := some "123456789", intentosRestantes := some 0 })).1 =
      { success := false, intentosRestantes := 0, message := "Código incorrecto" } :=
  ⟨rfl, by decide, rfl⟩

/-- Claim C1 as amended: the handler performs no local lockout check —
for any stored record with attemptsRemaining = 0 and non-empty inputs it
still makes exactly one upstream call, and when the upstream reports
failure it answers success = false with the stored counter kept at 0
(`max(0, 0 - 1) = 0`). -/
theorem c1_no_local_lockout
    (documento codigo tipo_documento session_id : String)
    (api : ValidarOtp.OtpApiResponse) (now : Int) (st : Option CatProd.SessionItem)
    (hdoc : documento ≠ "") (hcod : codigo ≠ "")
    (h0 : ValidarOtp.get_current_otp_attempts st = 0) :
    (ValidarOtp.handler documento codigo tipo_documento session_id api now st).2.2 = 1 ∧
    (api.success = false →
      (ValidarOtp.handler documento codigo tipo_documento session_id api now st).1.success
        = false ∧
      CatProd.storedIntentos
        (ValidarOtp.handler documento codigo tipo_documento session_id api now st).2.1 =
        some 0) := by
  constructor
  · simp only [ValidarOtp.handler]
    rw [if_neg (by simp [hdoc, hcod])]
    by_cases hs : api.success <;> simp [hs]
  · intro hfail
    constructor
    · simp [ValidarOtp.handler, hdoc, hcod, hfail]
    · simp [ValidarOtp.handler, ValidarOtp.update_otp_attempts,
        CatProd.storedIntentos, hdoc, hcod, hfail, h0]

/-- Witness for the amended C1 at a concrete locked-out record. -/
theorem c1_no_local_lockout_witness :
    (ValidarOtp.handler "9999" "0000" "CC" "s1"
      { success := false, message := some "Código incorrecto" } 5
      (some { documento := some "9999", intentosRestantes := some 0 })).2.2 = 1 ∧
    ((false = false) →
      (ValidarOtp.handler "9999" "0000" "CC" "s1"
        { success := false, message := some "Código incorrecto" } 5
        (some { documento := some "9999", intentosRestantes := some 0 })).1.success
          = false ∧
      CatProd.storedIntentos
        (ValidarOtp.handler "9999" "0000" "CC" "s1"
          { success := false, message := some "Código incorrecto" } 5
          (some { documento := some "9999", intentosRestantes := some 0 })).2.1 =
        some 0) :=
  c1_no_local_lockout "9999" "0000" "CC" "s1"
    { success := false, message := some "Código incorrecto" } 5
    (some { documento := some "9999", intentosRestantes := some 0 })
    (by decide) (by decide) rfl

/-- Claim C6 counterexample: a token refresh at time 200 on a record with
createdAt = 100 replaces token, refreshToken, tokenType, updatedAt and
ttl but leaves createdAt at 100 — so the claimed "replaces ... createdAt
... together" is false: createdAt is not among the replaced fields. -/
theorem c6_createdAt_counterexample :
    ((TokenLifecycle.update_token_in_dynamodb "123" "newT" "newR" "Bearer" 86400 200
        (some { documento := some "123", createdAt := some 100,
                intentosRestantes := some 2,
                chipsSeleccionados := some ["A"] })).2.bind
      fun it => it.token) = some "newT" ∧
    ((TokenLifecycle.update_token_in_dynamodb "123" "newT" "newR" "Bearer" 86400 200
        (some { documento := some "123", createdAt := some 100,
                intentosRestantes := some 2,
                chipsSeleccionados := some ["A"] })).2.bind
      fun it => it.updatedAt) = some 200 ∧
    ((TokenLifecycle.update_token_in_dynamodb "123" "newT" "newR" "Bearer" 86400 200
        (some { documento := some "123", createdAt := some 100,
                intentosRestantes := some 2,
                chipsSeleccionados := some ["A"] })).2.bind
      fun it => it.createdAt) = some 100 ∧
    some (100 : Int) ≠ some (200 : Int) :=
  ⟨rfl, rfl, rfl, by decide⟩

/-- Claim C6 as amended: a token refresh atomically replaces token,
refreshToken, tokenType, updatedAt (not createdAt) and ttl together in a
single store update, leaving every other field of the record — in
particular intentosRestantes, chipsSeleccionados and createdAt —
unchanged; and with an empty documento or token nothing is written at
all (never one field without the others). -/
theorem c6_refresh_atomic_update :
    (∀ (documento token refresh_token token_type : String) (expires_in now : Int)
      (item : CatProd.SessionItem), documento ≠ "" → token ≠ "" →
      TokenLifecycle.update_token_in_dynamodb documento token refresh_token
          token_type expires_in now (some item) =
        (true, some { item with
                      token := some token,
                      refreshToken := some refresh_token,
                      tokenType := some token_type,
                      updatedAt := some now,
                      ttl := some (now + expires_in) })) ∧
    (∀ (documento refresh_token token_type : String) (expires_in now : Int)
      (st : Option CatProd.SessionItem),
      TokenLifecycle.update_token_in_dynamodb documento "" refresh_token
        token_type expires_in now st = (false, st)) := by
  constructor
  · intro documento token refresh_token token_type expires_in now item hdoc htok
    simp [TokenLifecycle.update_token_in_dynamodb, hdoc, htok]
  · intro documento refresh_token token_type expires_in now st
    simp [TokenLifecycle.update_token_in_dynamodb]

/-- Witness for the amended C6 at a concrete record. -/
theorem c6_refresh_atomic_update_witness :
    TokenLifecycle.update_token_in_dynamodb "123" "newT" "newR" "Bearer" 86400 200
        (some { documento := some "123", createdAt := some 100,
                intentosRestantes := some 2,
                chipsSeleccionados := some ["A"] }) =
      (true, some { ({ documento := some "123", createdAt := some 100,
                       intentosRestantes := some 2,
                       chipsSeleccionados := some ["A"] } : CatProd.SessionItem) with
                       token := some "newT", refreshToken := some "newR",
                       tokenType := some "Bearer", updatedAt := some 200,
                       ttl := some (200 + 86400) }) :=
  c6_refresh_atomic_update.1 "123" "newT" "newR" "Bearer" 86400 200
    { documento := some "123", createdAt := some 100,
      intentosRestantes := some 2, chipsSeleccionados := some ["A"] }
    (by decide) (by decide)

/-- Claim C7: adding a property id already present in the stored
selection is an idempotent no-op that succeeds — the result reports
success with the stored total, and both the stored item and the write
count are unchanged. -/
theorem c7_duplicate_selection_idempotent (documento nuevo_chip : String)
    (item : CatProd.SessionItem)
    (hdoc : documento ≠ "") (hchip : nuevo_chip ≠ "")
    (hmem : nuevo_chip ∈ item.chipsSeleccionados.getD []) :
    BuscarPredios.actualizar_chips_seleccionados_dynamodb documento nuevo_chip
        (some item) =
      ({ success := true,
         message := "El predio ya estaba en tu selección (" ++
           toString (item.chipsSeleccionados.getD []).length ++ "/3)",
         chips := item.chipsSeleccionados.getD [],
         total := (item.chipsSeleccionados.getD []).length,
         limiteAlcanzado := decide (3 ≤ (item.chipsSeleccionados.getD []).length) },
       some item, 0) := by
  simp [BuscarPredios.actualizar_chips_seleccionados_dynamodb, hdoc, hchip, hmem]

/-- Witness for C7: re-adding chip "A" to the stored list ["A", "B"]. -/
theorem c7_duplicate_selection_idempotent_witness :
    BuscarPredios.actualizar_chips_seleccionados_dynamodb "123" "A"
        (some { chipsSeleccionados := some ["A", "B"] }) =
      ({ success := true,
         message := "El predio ya estaba en tu selección (" ++
           toString ((some ["A", "B"] : Option (List String)).getD []).length ++ "/3)",
         chips := (some ["A", "B"] : Option (List String)).getD [],
         total := ((some ["A", "B"] : Option (List String)).getD []).length,
         limiteAlcanzado :=
           decide (3 ≤ ((some ["A", "B"] : Option (List String)).getD []).length) },
       some { chipsSeleccionados := some ["A", "B"] }, 0) :=
  c7_duplicate_selection_idempotent "123" "A"
    { chipsSeleccionados := some ["A", "B"] } (by decide) (by decide) (by decide)

/-- Claim C8: with 3 ids already stored, adding a new distinct id is
rejected with the limit-reached failure and no write, leaving the stored
list unchanged; moreover any call preserves the invariant that the
stored list has at most 3 entries. -/
theorem c8_limit_reached_rejection :
    (∀ (documento nuevo_chip : String) (item : CatProd.SessionItem),
      documento ≠ "" → nuevo_chip ≠ "" →
      (item.chipsSeleccionados.getD []).length = 3 →
      nuevo_chip ∉ item.chipsSeleccionados.getD [] →
      BuscarPredios.actualizar_chips_seleccionados_dynamodb documento nuevo_chip
          (some item) =
        ({ success := false,
           message := "Has alcanzado el límite máximo de 3 predios.",
           chips := item.chipsSeleccionados.getD [],
           total := 3, limiteAlcanzado := true }, some item, 0)) ∧
    (∀ (documento nuevo_chip : String) (st : Option CatProd.SessionItem),
      (CatProd.storedChips st).length ≤ 3 →
      (CatProd.storedChips
        (BuscarPredios.actualizar_chips_seleccionados_dynamodb documento
          nuevo_chip st).2.1).length ≤ 3) := by
  constructor
  · intro documento nuevo_chip item hdoc hchip hlen hmem
    simp [BuscarPredios.actualizar_chips_seleccionados_dynamodb, hdoc, hchip,
      hmem, hlen]
  · intro documento nuevo_chip st hlen
    unfold BuscarPredios.actualizar_chips_seleccionados_dynamodb
    split
    · exact hlen
    · split
      · simp [CatProd.storedChips]
      · rename_i item
        simp only [CatProd.storedChips] at hlen ⊢
        split
        · exact hlen
        · split
          · exact hlen
          · rename_i hnotmem hlt
            simp only [Option.some_bind, Option.getD_some, List.length_append,
              List.length_singleton] at hlt ⊢
            omega

/-- Witness for C8: rejecting chip "D" against the full list
["A", "B", "C"]. -/
theorem c8_limit_reached_rejection_witness :
    BuscarPredios.actualizar_chips_seleccionados_dynamodb "123" "D"
        (some { chipsSeleccionados := some ["A", "B", "C"] }) =
      ({ success := false,
         message := "Has alcanzado el límite máximo de 3 predios.",
         chips := (some ["A", "B", "C"] : Option (List String)).getD [],
         total := 3, limiteAlcanzado := true },
       some { chipsSeleccionados := some ["A", "B", "C"] }, 0) :=
  c8_limit_reached_rejection.1 "123" "D"
    { chipsSeleccionados := some ["A", "B", "C"] }
    (by decide) (by decide) (by decide) (by decide)

/-- Claim C10: when more than 3 property ids are gathered (from
addresses or from the stored selection), the certificate-generation
handler does not reject: it truncates to the first 3 ids in order
(`chips[:MAX_CERTIFICADOS]`) and proceeds with exactly those. -/
theorem c10_truncate_to_three (from_direcciones : Bool)
    (converted stored chips : List String)
    (hres : GenerarCertificados.resolve_chips from_direcciones converted stored =
      .ok chips)
    (hlen : GenerarCertificados.MAX_CERTIFICADOS < chips.length) :
    GenerarCertificados.chips_to_generate from_direcciones converted stored =
      .ok (chips.take GenerarCertificados.MAX_CERTIFICADOS) ∧
    (chips.take GenerarCertificados.MAX_CERTIFICADOS).length =
      GenerarCertificados.MAX_CERTIFICADOS ∧
    chips.take GenerarCertificados.MAX_CERTIFICADOS ++
      chips.drop GenerarCertificados.MAX_CERTIFICADOS = chips := by
  refine ⟨?_, ?_, List.take_append_drop _ _⟩
  · simp [GenerarCertificados.chips_to_generate, Except.map, hres, hlen]
  · simp [List.length_take]
    omega

/-- Witness for C10 on a stored selection of five chips. -/
theorem c10_truncate_to_three_witness :
    GenerarCertificados.chips_to_generate false [] ["a", "b", "c", "d", "e"] =
      .ok ((["a", "b", "c", "d", "e"] : List String).take
        GenerarCertificados.MAX_CERTIFICADOS) ∧
    ((["a", "b", "c", "d", "e"] : List String).take
      GenerarCertificados.MAX_CERTIFICADOS).length =
      GenerarCertificados.MAX_CERTIFICADOS ∧
    (["a", "b", "c", "d", "e"] : List String).take
        GenerarCertificados.MAX_CERTIFICADOS ++
      (["a", "b", "c", "d", "e"] : List String).drop
        GenerarCertificados.MAX_CERTIFICADOS = ["a", "b", "c", "d", "e"] :=
  c10_truncate_to_three false [] ["a", "b", "c", "d", "e"]
    ["a", "b", "c", "d", "e"] rfl (by decide)

/-- Claim C2: when the validate-token response reports valid = true with
timeToExpire strictly above the 2000 threshold, validate_token (the
shared copy of cat-prod-lambda-listar-predios.py and
cat-prod-lambda-buscar-predios.py) returns success and makes zero
refresh calls, leaving the stored record untouched. -/
theorem c2_valid_token_no_refresh (st : Option CatProd.SessionItem)
    (body : TokenLifecycle.ValidateBody)
    (rest : List TokenLifecycle.ValidateAttempt)
    (refreshAttempts : List TokenLifecycle.RefreshAttempt) (now : Int)
    (hvalid : (body.data.getD {}).valid.getD false = true)
    (hexp : 2000 < ((body.data.getD {}).tokenInfo.getD {}).timeToExpire.getD 0) :
    TokenLifecycle.validate_token st
        (TokenLifecycle.ValidateAttempt.parsed body :: rest) refreshAttempts now =
      (some { status_code := 200, success := true, message := "Token es válido" },
       st, 1, 0) := by
  simp [TokenLifecycle.validate_token, TokenLifecycle.validateLoop, hvalid, hexp]

/-- Witness for C2 on a record holding token "tok" and a response with
timeToExpire = 5000. -/
theorem c2_valid_token_no_refresh_witness :
    TokenLifecycle.validate_token
        (some { documento := some "123", token := some "tok",
                refreshToken := some "ref" })
        (TokenLifecycle.ValidateAttempt.parsed
          { data := some { valid := some true,
                           tokenInfo := some { timeToExpire := some 5000 } } } :: [])
        [] 0 =
      (some { status_code := 200, success := true, message := "Token es válido" },
       some { documento := some "123", token := some "tok",
              refreshToken := some "ref" }, 1, 0) :=
  c2_valid_token_no_refresh
    (some { documento := some "123", token := some "tok",
            refreshToken := some "ref" })
    { data := some { valid := some true,
                     tokenInfo := some { timeToExpire := some 5000 } } }
    [] [] 0 rfl (by decide)

/-- Claim C3 counterexample: for a citizen with no stored SessionRecord,
validate_token does NOT fail without a network call — it performs one
upstream validate-token GET (third component 1, not 0), and the failure
it then returns is the missing-refresh-token message from the refresh
path, not a dedicated session-not-found error. -/
theorem c3_session_not_found_counterexample :
    (TokenLifecycle.validate_token none
      [TokenLifecycle.ValidateAttempt.parsed {}] [] 0).2.2.1 = 1 ∧
    (1 : Nat) ≠ 0 ∧
    (TokenLifecycle.validate_token none
      [TokenLifecycle.ValidateAttempt.parsed {}] [] 0).1 =
      some { status_code := 200, success := false,
             message := "No se encontró refresh token. Por favor, inicia sesión nuevamente." } :=
  ⟨rfl, by decide, rfl⟩

/-- Claim C3 as amended: on a missing SessionRecord validate_token does
not fail fast — it sends one validate-token request anyway, with the
empty string as bearer token; when the upstream does not report that
token valid it fails through the refresh path with the
missing-refresh-token (re-login) message, the store untouched and no
refresh call made. -/
theorem c3_missing_session_still_calls_upstream
    (body : TokenLifecycle.ValidateBody)
    (rest : List TokenLifecycle.ValidateAttempt)
    (refreshAttempts : List TokenLifecycle.RefreshAttempt) (now : Int)
    (hinvalid : (body.data.getD {}).valid.getD false = false) :
    TokenLifecycle.validate_request_token none = "" ∧
    TokenLifecycle.validate_token none
        (TokenLifecycle.ValidateAttempt.parsed body :: rest) refreshAttempts now =
      (some { status_code := 200, success := false,
              message := "No se encontró refresh token. Por favor, inicia sesión nuevamente." },
       none, 1, 0) := by
  constructor
  · rfl
  · simp [TokenLifecycle.validate_token, TokenLifecycle.validateLoop,
      TokenLifecycle.refresh_token_for_document, hinvalid]

/-- Witness for the amended C3 with an upstream response reporting
valid = false. -/
theorem c3_missing_session_still_calls_upstream_witness :
    TokenLifecycle.validate_request_token none = "" ∧
    TokenLifecycle.validate_token none
        (TokenLifecycle.ValidateAttempt.parsed
          { data := some { valid := some false } } :: []) [] 7 =
      (some { status_code := 200, success := false,
              message := "No se encontró refresh token. Por favor, inicia sesión nuevamente." },
       none, 1, 0) :=
  c3_missing_session_still_calls_upstream
    { data := some { valid := some false } } [] [] 7 rfl

/-- Helper for C9: starting from any last_exception value, the
call_validar_otp retry loop on a list of all-transient outcomes ending
in `last` returns the structured failure describing `last`. -/
theorem otp_retry_all_transient_aux (documento : String) :
    ∀ (front : List ValidarOtp.OtpAttempt) (last : ValidarOtp.OtpAttempt)
      (exc : Option String),
      (∀ o ∈ front ++ [last], o.isTransient = true) →
      ValidarOtp.otpRetryLoop documento (front ++ [last]) exc =
        ValidarOtp.otpTransientExhaust last := by
  intro front
  induction front with
  | nil =>
    intro last exc htrans
    have hlast := htrans last (by simp)
    cases last <;>
      simp_all [ValidarOtp.otpRetryLoop, ValidarOtp.otpTransientExhaust,
        ValidarOtp.OtpAttempt.isTransient]
  | cons o front2 ih =>
    intro last exc htrans
    have ho := htrans o (by simp)
    have htrans2 : ∀ x ∈ front2 ++ [last], x.isTransient = true :=
      fun x hx => htrans x (by simp at hx ⊢; tauto)
    cases o with
    | parsed status body => simp [ValidarOtp.OtpAttempt.isTransient] at ho
    | unexpected e => simp [ValidarOtp.OtpAttempt.isTransient] at ho
    | emptyBody =>
      rw [← ih last exc htrans2]
      simp [ValidarOtp.otpRetryLoop]
    | badJson =>
      rw [← ih last exc htrans2]
      simp [ValidarOtp.otpRetryLoop]
    | timeout e =>
      rw [← ih last (some e) htrans2]
      simp [ValidarOtp.otpRetryLoop]
    | connError e =>
      rw [← ih last (some e) htrans2]
      simp [ValidarOtp.otpRetryLoop]
    | reqError e =>
      rw [← ih last (some e) htrans2]
      simp [ValidarOtp.otpRetryLoop]

/-- Helper for C9: the call_refresh_token_api retry loop on a list of
all-transient outcomes ending in `last` returns the structured failure
describing `last` and makes one HTTP call per outcome. -/
theorem refresh_retry_all_transient_aux :
    ∀ (front : List TokenLifecycle.RefreshAttempt)
      (last : TokenLifecycle.RefreshAttempt) (exc : Option String),
      (∀ o ∈ front ++ [last], o.isTransient = true) →
      TokenLifecycle.refreshRetryLoop (front ++ [last]) exc =
        (TokenLifecycle.refreshTransientExhaust last, (front ++ [last]).length) := by
  intro front
  induction front with
  | nil =>
    intro last exc htrans
    have hlast := htrans last (by simp)
    cases last <;>
      simp_all [TokenLifecycle.refreshRetryLoop,
        TokenLifecycle.refreshTransientExhaust,
        TokenLifecycle.RefreshAttempt.isTransient]
  | cons o front2 ih =>
    intro last exc htrans
    have ho := htrans o (by simp)
    have htrans2 : ∀ x ∈ front2 ++ [last], x.isTransient = true :=
      fun x hx => htrans x (by simp at hx ⊢; tauto)
    cases o with
    | parsed status body => simp [TokenLifecycle.RefreshAttempt.isTransient] at ho
    | unexpected e => simp [TokenLifecycle.RefreshAttempt.isTransient] at ho
    | emptyBody =>
      simp [TokenLifecycle.refreshRetryLoop, ih last exc htrans2]
    | badJson ct =>
      simp [TokenLifecycle.refreshRetryLoop, ih last exc htrans2]
    | timeout e =>
      simp [TokenLifecycle.refreshRetryLoop, ih last (some e) htrans2]
    | connError e =>
      simp [TokenLifecycle.refreshRetryLoop, ih last (some e) htrans2]
    | reqError e =>
      simp [TokenLifecycle.refreshRetryLoop, ih last (some e) htrans2]

/-- Claim C9: a retry-wrapped outbound call that exhausts all MAX_RETRIES
attempts on transient failures (timeout, connection error, empty body,
unparseable body, other request error) returns a structured failure
value describing the last transient error — it never escapes as an
exception, the caller always receives a result.  Stated for
call_validar_otp of cat-prod-lambda-validar-otp.py and for
call_refresh_token_api shared by the predios lambdas (which also makes
exactly MAX_RETRIES HTTP calls). -/
theorem c9_retry_exhaustion_structured_failure :
    (∀ (documento : String) (front : List ValidarOtp.OtpAttempt)
      (last : ValidarOtp.OtpAttempt),
      (front ++ [last]).length = ValidarOtp.MAX_RETRIES →
      (∀ o ∈ front ++ [last], o.isTransient = true) →
      ValidarOtp.call_validar_otp documento (front ++ [last]) =
        ValidarOtp.otpTransientExhaust last ∧
      (ValidarOtp.otpTransientExhaust last).success = false ∧
      (ValidarOtp.otpTransientExhaust last).message ≠ none) ∧
    (∀ (front : List TokenLifecycle.RefreshAttempt)
      (last : TokenLifecycle.RefreshAttempt),
      (front ++ [last]).length = TokenLifecycle.MAX_RETRIES →
      (∀ o ∈ front ++ [last], o.isTransient = true) →
      TokenLifecycle.call_refresh_token_api (front ++ [last]) =
        (TokenLifecycle.refreshTransientExhaust last,
         TokenLifecycle.MAX_RETRIES)) := by
  constructor
  · intro documento front last hlen htrans
    refine ⟨otp_retry_all_transient_aux documento front last none htrans, ?_, ?_⟩
    · have hl := htrans last (by simp)
      cases last <;>
        simp_all [ValidarOtp.otpTransientExhaust, ValidarOtp.OtpAttempt.isTransient]
    · have hl := htrans last (by simp)
      cases last <;>
        simp_all [ValidarOtp.otpTransientExhaust, ValidarOtp.OtpAttempt.isTransient]
  · intro front last hlen htrans
    rw [TokenLifecycle.call_refresh_token_api,
      refresh_retry_all_transient_aux front last none htrans, hlen]

/-- Witness for C9: nine empty-body failures followed by a final timeout
for the OTP wrapper, and nine connection errors followed by a final
unparseable body for the refresh wrapper. -/
theorem c9_retry_exhaustion_structured_failure_witness :
    (ValidarOtp.call_validar_otp "123"
        (List.replicate 9 ValidarOtp.OtpAttempt.emptyBody ++
          [ValidarOtp.OtpAttempt.timeout "boom"]) =
      ValidarOtp.otpTransientExhaust (ValidarOtp.OtpAttempt.timeout "boom") ∧
     (ValidarOtp.otpTransientExhaust (ValidarOtp.OtpAttempt.timeout "boom")).success
       = false ∧
     (ValidarOtp.otpTransientExhaust (ValidarOtp.OtpAttempt.timeout "boom")).message
       ≠ none) ∧
    TokenLifecycle.call_refresh_token_api
        (List.replicate 9 (TokenLifecycle.RefreshAttempt.connError "x") ++
          [TokenLifecycle.RefreshAttempt.badJson "text/html"]) =
      (TokenLifecycle.refreshTransientExhaust
        (TokenLifecycle.RefreshAttempt.badJson "text/html"),
       TokenLifecycle.MAX_RETRIES) :=
  ⟨c9_retry_exhaustion_structured_failure.1 "123"
      (List.replicate 9 ValidarOtp.OtpAttempt.emptyBody)
      (ValidarOtp.OtpAttempt.timeout "boom") (by decide) (by decide),
   c9_retry_exhaustion_structured_failure.2
      (List.replicate 9 (TokenLifecycle.RefreshAttempt.connError "x"))
      (TokenLifecycle.RefreshAttempt.badJson "text/html") (by decide) (by decide)⟩
